import Mathlib

/-!
Shallow embedding of `src/graphene/types/field.py`: the `Field` /
`FieldDecorator` construct and the `field_property` helper, together with
proofs of the specified properties.

Python callables are modelled as Lean functions; Python `None` as `Option`;
assertion failures and raised exceptions as `Except String`; Python
truthiness is computed explicitly where the source relies on it.
-/

namespace Graphene

/-- Graphene types as used by `field.py`: an opaque base type, or the
`NonNull` wrapper applied by `Field.__init__` when `required` is truthy
(`structures.NonNull` is an external collaborator; only its role as a
wrapper and the `isinstance(…, NonNull)` test are needed here). -/
inductive GraphType where
  | base (id : Nat)
  | nonNull (t : GraphType)
deriving DecidableEq, Repr

/-- `isinstance(t, NonNull)`. -/
def GraphType.isNonNull : GraphType → Bool
  | .nonNull _ => true
  | _ => false

/-- Modelled from the spec: `get_type` (type resolution, declared out of
scope as a black box) resolves lazy type references; on the plain type
objects modelled here it returns its argument unchanged. -/
def get_type (t : GraphType) : GraphType := t

/-- An `Argument` or `UnmountedType` instance, opaque to this component
(argument coercion is out of scope); identified by an id. -/
def ArgLike := Nat
deriving DecidableEq, Repr

/-- A Python function object as passed for `fget`: its behaviour on an
instance, and the result of `inspect.getdoc` on it (the cleaned docstring,
or `None` when it has none). -/
structure PyFunc (α β : Type) where
  fn : α → β
  doc : Option String

/-- A value that can sit in a `Field`'s `resolver` slot: a user-supplied
callable, or the `partial(source_resolver, source)` closure that
`Field.__init__` builds when `source` is truthy. -/
inductive Resolver (α β : Type) where
  | user (f : PyFunc α β)
  | sourcePartial (source : String)

/-- The `name` / `source` constructor parameters: Python `None`, a string,
or an `Argument`/`UnmountedType` instance (which `Field.__init__` moves
into `extra_args`). -/
inductive StrOrMounted where
  | pynone
  | str (s : String)
  | mounted (a : ArgLike)
deriving DecidableEq, Repr

/-- Python truthiness of a `name`/`source` parameter: `None` and the empty
string are falsy; instances are truthy. -/
def StrOrMounted.truthy : StrOrMounted → Bool
  | .pynone => false
  | .str s => !s.isEmpty
  | .mounted _ => true

/-- The plain-string content, after `Field.__init__` has replaced a mounted
instance by `None`. -/
def StrOrMounted.toOpt : StrOrMounted → Option String
  | .str s => some s
  | _ => none

/-- `isinstance(x, (Argument, UnmountedType))`. -/
def StrOrMounted.isMounted : StrOrMounted → Bool
  | .mounted _ => true
  | _ => false

/-- The `args` constructor parameter: Python `None`, a `Mapping`, or some
other value (carrying only its truthiness, which is all the assertion
inspects). -/
inductive ArgsParam where
  | pynone
  | mapping (m : List (String × ArgLike))
  | other (truthy : Bool)
deriving DecidableEq, Repr

/-- Python truthiness of the `args` parameter (`None` and empty containers
are falsy). -/
def ArgsParam.truthy : ArgsParam → Bool
  | .pynone => false
  | .mapping m => !m.isEmpty
  | .other t => t

/-- `isinstance(args, Mapping)`. -/
def ArgsParam.isMapping : ArgsParam → Bool
  | .mapping _ => true
  | _ => false

/-- The items of `args or {}` (falsy values are replaced by the empty
mapping before coercion). -/
def ArgsParam.items : ArgsParam → List (String × ArgLike)
  | .mapping m => m
  | _ => []

/-- The `default_value` parameter: Python `None`, a non-callable value
(opaque id), or a callable value (opaque id); `callable(default_value)` is
the only inspection the source performs besides storing it. -/
inductive PyDefault where
  | pynone
  | value (id : Nat)
  | callable (id : Nat)
deriving DecidableEq, Repr

/-- `callable(default_value)`. -/
def PyDefault.isCallable : PyDefault → Bool
  | .callable _ => true
  | _ => false

/-- Python `dict` assignment `d[k] = v` on an association list. -/
def setKey (d : List (String × ArgLike)) (k : String) (v : ArgLike) :
    List (String × ArgLike) :=
  d.filter (fun p => p.1 ≠ k) ++ [(k, v)]

/-- Modelled from the spec: `to_arguments` (argument coercion, declared out
of scope as a black box) combines the supplied argument mapping with the
extra keyword arguments into the field's argument mapping. -/
def to_arguments (args : List (String × ArgLike))
    (extra_args : List (String × ArgLike)) : List (String × ArgLike) :=
  args ++ extra_args

/-- Whether a constructor call succeeded, i.e. no assertion fired. -/
def isOk {ε γ : Type} : Except ε γ → Bool
  | .ok _ => true
  | .error _ => false

/-- Reinjection of a stored plain name (`self.name`, a string or `None`)
into the constructor-parameter type, for the re-construction calls made by
`getter`/`setter`/`deleter`. -/
def strOrMountedOfOpt : Option String → StrOrMounted
  | some s => .str s
  | none => .pynone

/-- The state a `Field.__init__` call leaves on the object (`Field` in
`field.py`; the `MountedType` creation counter is out of scope). The class
attribute `get_resolver = None` is carried as an instance slot so that
`wrap_resolve`'s test on it can be expressed; no code in this component
ever sets it. -/
structure Field (α β : Type) where
  name : Option String
  _type : GraphType
  args : List (String × ArgLike)
  resolver : Option (Resolver α β)
  deprecation_reason : Option String
  description : Option String
  default_value : PyDefault
  get_resolver : Option (Option (Resolver α β) → Option (Resolver α β))

/-- `Field.__init__`: the three assertions, the `required` wrap, the
mounted `name`/`source` relocation into `extra_args`, the `source`-derived
resolver, and the attribute stores, in source order. An assertion failure
is an `Except.error` carrying the assertion's message. -/
def Field.make {α β : Type} (type_ : GraphType) (args : ArgsParam)
    (resolver : Option (Resolver α β)) (source : StrOrMounted)
    (deprecation_reason : Option String) (name : StrOrMounted)
    (description : Option String) (required : Bool)
    (default_value : PyDefault) (extra_args : List (String × ArgLike)) :
    Except String (Field α β) :=
  if args.truthy && !args.isMapping then
    .error "Arguments in a field have to be a mapping."
  else if source.truthy && resolver.isSome then
    .error "A Field cannot have a source and a resolver in at the same time."
  else if default_value.isCallable then
    .error "The default value can not be a function."
  else
    let type_ := if required then GraphType.nonNull type_ else type_
    let (extra_args, name) :=
      match name with
      | .mounted a => (setKey extra_args "name" a, StrOrMounted.pynone)
      | n => (extra_args, n)
    let (extra_args, source) :=
      match source with
      | .mounted a => (setKey extra_args "source" a, StrOrMounted.pynone)
      | s => (extra_args, s)
    let resolver :=
      match source with
      | .str s => if !s.isEmpty then some (Resolver.sourcePartial s) else resolver
      | _ => resolver
    .ok { name := name.toOpt
          _type := type_
          args := to_arguments args.items extra_args
          resolver := resolver
          deprecation_reason := deprecation_reason
          description := description
          default_value := default_value
          get_resolver := none }

/-- `Field.wrap_resolve`: with `get_resolver` set (deprecated path) it
delegates to it; otherwise `self.resolver or parent_resolver` (a callable
is always truthy, `None` is falsy). The deprecation warning is a logging
side effect with no semantic content. -/
def Field.wrap_resolve {α β : Type} (f : Field α β)
    (parent_resolver : Option (Resolver α β)) : Option (Resolver α β) :=
  match f.get_resolver with
  | some gr => gr parent_resolver
  | none =>
    match f.resolver with
    | some r => some r
    | none => parent_resolver

/-- `Field.wrap_subscribe`: returns `parent_subscribe` unchanged. -/
def Field.wrap_subscribe {α β : Type} (_f : Field α β)
    (parent_subscribe : Option (Resolver α β)) : Option (Resolver α β) :=
  parent_subscribe

/-- The state a `FieldDecorator.__init__` call leaves on the object: the
inherited `Field` state plus the three property callables. `fget` is a
Python function object (with docstring); `fset`/`fdel` act on the instance
(state-passing models their side effect on it). -/
structure FieldDecorator (α β : Type) where
  toField : Field α β
  fget : Option (PyFunc α β)
  fset : Option (α → β → α)
  fdel : Option (α → α)

/-- The description `FieldDecorator.__init__` stores (`self.description`
after its first two statements): defaulted to `getdoc(self.fget)` when no
description is given and a getter is present. -/
def decoratorDescription {α β : Type} (fget : Option (PyFunc α β))
    (description : Option String) : Option String :=
  if description.isNone && fget.isSome then fget.bind (·.doc) else description

/-- `FieldDecorator.__init__`: defaults the description to
`getdoc(self.fget)` when no description was given and `fget` is present
(`decoratorDescription`), then calls `Field.__init__` with
`resolver=self.fget` and no source. -/
def FieldDecorator.make {α β : Type} (fget : Option (PyFunc α β))
    (fset : Option (α → β → α)) (fdel : Option (α → α)) (type_ : GraphType)
    (args : ArgsParam) (name : StrOrMounted) (description : Option String)
    (required : Bool) (default_value : PyDefault)
    (deprecation_reason : Option String)
    (extra_args : List (String × ArgLike)) :
    Except String (FieldDecorator α β) :=
  match Field.make type_ args (fget.map Resolver.user) StrOrMounted.pynone
      deprecation_reason name (decoratorDescription fget description) required
      default_value extra_args with
  | .error e => .error e
  | .ok f => .ok { toField := f, fget := fget, fset := fset, fdel := fdel }

/-- What `FieldDecorator.__get__` hands back to the attribute-access
machinery: the descriptor itself, a computed value, or — as the source is
written — an `AttributeError` instance *returned as the value* (the
source's `return AttributeError(…)`, as opposed to the `raise` in
`__set__`/`__delete__`). -/
inductive GetResult (α β : Type) where
  | descriptor (d : FieldDecorator α β)
  | value (v : β)
  | attrErrorValue (msg : String)

/-- `FieldDecorator.__get__`: `obj = none` models access through the class. -/
def FieldDecorator.get {α β : Type} (d : FieldDecorator α β)
    (obj : Option α) : GetResult α β :=
  match obj with
  | none => .descriptor d
  | some o =>
    match d.fget with
    | none => .attrErrorValue "Can't get attribute!"
    | some f => .value (f.fn o)

/-- `FieldDecorator.__set__`: raises `AttributeError` when `fset` is
`None`, otherwise calls `fset(obj, value)` (state-passing: the updated
instance is the result). -/
def FieldDecorator.set {α β : Type} (d : FieldDecorator α β) (obj : α)
    (value : β) : Except String α :=
  match d.fset with
  | none => .error "Can't set attribute!"
  | some f => .ok (f obj value)

/-- `FieldDecorator.__delete__`: raises `AttributeError` when `fdel` is
`None`, otherwise calls `fdel(obj)`. -/
def FieldDecorator.delete {α β : Type} (d : FieldDecorator α β) (obj : α) :
    Except String α :=
  match d.fdel with
  | none => .error "Can't delete attribute!"
  | some f => .ok (f obj)

/-- `FieldDecorator.getter`: rebuilds via `type(self)(…)` with the new
`fget`, `required = isinstance(self.type, NonNull)` and the stored state
passed positionally. -/
def FieldDecorator.getter {α β : Type} (d : FieldDecorator α β)
    (fget : PyFunc α β) : Except String (FieldDecorator α β) :=
  FieldDecorator.make (some fget) d.fset d.fdel d.toField._type
    (ArgsParam.mapping d.toField.args)
    (strOrMountedOfOpt d.toField.name)
    d.toField.description (get_type d.toField._type).isNonNull
    d.toField.default_value d.toField.deprecation_reason []

/-- `FieldDecorator.setter`: as `getter`, replacing `fset`. -/
def FieldDecorator.setter {α β : Type} (d : FieldDecorator α β)
    (fset : α → β → α) : Except String (FieldDecorator α β) :=
  FieldDecorator.make d.fget (some fset) d.fdel d.toField._type
    (ArgsParam.mapping d.toField.args)
    (strOrMountedOfOpt d.toField.name)
    d.toField.description (get_type d.toField._type).isNonNull
    d.toField.default_value d.toField.deprecation_reason []

/-- `FieldDecorator.deleter`: as `getter`, replacing `fdel`. -/
def FieldDecorator.deleter {α β : Type} (d : FieldDecorator α β)
    (fdel : α → α) : Except String (FieldDecorator α β) :=
  FieldDecorator.make d.fget d.fset (some fdel) d.toField._type
    (ArgsParam.mapping d.toField.args)
    (strOrMountedOfOpt d.toField.name)
    d.toField.description (get_type d.toField._type).isNonNull
    d.toField.default_value d.toField.deprecation_reason []

/-- `field_property` called with the function given directly (the
`func_ != None` branch): builds the `FieldDecorator` with `fset = fdel =
None`. -/
def field_property {α β : Type} (func_ : PyFunc α β) (type_ : GraphType)
    (name : StrOrMounted) (description : Option String) (required : Bool)
    (args : ArgsParam) (default_value : PyDefault)
    (deprication_reason : Option String)
    (extra_args : List (String × ArgLike)) :
    Except String (FieldDecorator α β) :=
  FieldDecorator.make (some func_) none none type_ args name description
    required default_value deprication_reason extra_args

/-- `field_property` called with keyword arguments only (the `func_ ==
None` branch): returns the `wrapper` closure, which builds the same
`FieldDecorator` once applied to the function. -/
def field_property_wrapper {α β : Type} (type_ : GraphType)
    (name : StrOrMounted) (description : Option String) (required : Bool)
    (args : ArgsParam) (default_value : PyDefault)
    (deprication_reason : Option String)
    (extra_args : List (String × ArgLike)) :
    PyFunc α β → Except String (FieldDecorator α β) :=
  fun func =>
    FieldDecorator.make (some func) none none type_ args name description
      required default_value deprication_reason extra_args

/-! Concrete instances used to instantiate the theorems below. -/

/-- A sample getter function with a docstring. -/
def sampleGet : PyFunc Nat Nat := ⟨fun n => n + 1, some "The docstring."⟩

/-- A getter function without a docstring. -/
def noDocGet : PyFunc Nat Nat := ⟨fun n => n, none⟩

/-- A decorator with all three property callables present: the state left
by `FieldDecorator.__init__` for a full getter/setter/deleter triplet. -/
def dFull : FieldDecorator Nat Nat :=
  { toField :=
      { name := some "p", _type := GraphType.base 0, args := [],
        resolver := some (Resolver.user sampleGet), deprecation_reason := none,
        description := some "The docstring.", default_value := PyDefault.pynone,
        get_resolver := none },
    fget := some sampleGet, fset := some (fun _ v => v), fdel := some (fun _ => 0) }

/-- A decorator with none of the three property callables. -/
def dEmpty : FieldDecorator Nat Nat :=
  { toField :=
      { name := none, _type := GraphType.base 0, args := [], resolver := none,
        deprecation_reason := none, description := none,
        default_value := PyDefault.pynone, get_resolver := none },
    fget := none, fset := none, fdel := none }

/-- The decorator produced by `field_property` for `sampleGet` on a plain
(non-required) type. -/
def dProp : FieldDecorator Nat Nat :=
  { toField :=
      { name := none, _type := GraphType.base 2, args := [],
        resolver := some (Resolver.user sampleGet), deprecation_reason := none,
        description := some "The docstring.", default_value := PyDefault.pynone,
        get_resolver := none },
    fget := some sampleGet, fset := none, fdel := none }

/-- The decorator produced by `FieldDecorator.__init__` with
`required=True`: its stored type is already `NonNull`-wrapped. -/
def dReq : FieldDecorator Nat Nat :=
  { toField :=
      { name := some "p", _type := GraphType.nonNull (GraphType.base 0), args := [],
        resolver := some (Resolver.user sampleGet), deprecation_reason := none,
        description := some "The docstring.", default_value := PyDefault.pynone,
        get_resolver := none },
    fget := some sampleGet, fset := none, fdel := none }

/-- A decorator whose getter has no docstring and whose description is
`None`. -/
def dNoDoc : FieldDecorator Nat Nat :=
  { toField :=
      { name := none, _type := GraphType.base 1, args := [],
        resolver := some (Resolver.user noDocGet), deprecation_reason := none,
        description := none, default_value := PyDefault.pynone,
        get_resolver := none },
    fget := some noDocGet, fset := none, fdel := none }

/-- A decorator constructed with an explicit description, although its
getter has a docstring. -/
def dExplicitDesc : FieldDecorator Nat Nat :=
  { toField :=
      { name := none, _type := GraphType.base 3, args := [],
        resolver := some (Resolver.user sampleGet), deprecation_reason := none,
        description := some "explicit", default_value := PyDefault.pynone,
        get_resolver := none },
    fget := some sampleGet, fset := none, fdel := none }

/-- The field produced by `Field.__init__` from a truthy `source` with
`required=True`. -/
def sampleSourceField : Field Nat Nat :=
  { name := some "n", _type := GraphType.nonNull (GraphType.base 0), args := [],
    resolver := some (Resolver.sourcePartial "src"), deprecation_reason := some "old",
    description := some "d", default_value := PyDefault.value 7, get_resolver := none }

/-! Helper lemmas characterising the constructors. -/

/-- The `extra_args` mapping after `Field.__init__` has relocated a mounted
`name`/`source` into it (name first, then source, as in the source order). -/
def relocatedExtra (name source : StrOrMounted) (ex : List (String × ArgLike)) :
    List (String × ArgLike) :=
  let ex' := match name with | .mounted b => setKey ex "name" b | _ => ex
  match source with | .mounted a => setKey ex' "source" a | _ => ex'

/-- The resolver `Field.__init__` stores: the `source`-derived
`partial(source_resolver, source)` when `source` is (still) a truthy
string, else the `resolver` argument. -/
def storedResolver {α β : Type} (source : StrOrMounted)
    (resolver : Option (Resolver α β)) : Option (Resolver α β) :=
  match source with
  | .str s => if !s.isEmpty then some (Resolver.sourcePartial s) else resolver
  | _ => resolver

/-- If `Field.__init__` returns normally, none of its three assertions
fired. -/
lemma Field.make_ok_inv {α β : Type} {type_ : GraphType} {args : ArgsParam}
    {resolver : Option (Resolver α β)} {source : StrOrMounted}
    {dr : Option String} {name : StrOrMounted} {desc : Option String}
    {req : Bool} {dv : PyDefault} {ex : List (String × ArgLike)} {f : Field α β}
    (h : Field.make type_ args resolver source dr name desc req dv ex = Except.ok f) :
    (args.truthy && !args.isMapping) = false ∧
    (source.truthy && resolver.isSome) = false ∧
    dv.isCallable = false := by
  unfold Field.make at h
  split at h
  · exact Except.noConfusion h
  · split at h
    · exact Except.noConfusion h
    · split at h
      · exact Except.noConfusion h
      · rename_i h1 h2 h3
        exact ⟨by simpa using h1, by simpa using h2, by simpa using h3⟩

/-- The record `Field.__init__` stores when none of its assertions fires. -/
lemma Field.make_ok_of_guards {α β : Type} (type_ : GraphType) (args : ArgsParam)
    (resolver : Option (Resolver α β)) (source : StrOrMounted)
    (dr : Option String) (name : StrOrMounted) (desc : Option String)
    (req : Bool) (dv : PyDefault) (ex : List (String × ArgLike))
    (hc1 : (args.truthy && !args.isMapping) = false)
    (hc2 : (source.truthy && resolver.isSome) = false)
    (hc3 : dv.isCallable = false) :
    Field.make type_ args resolver source dr name desc req dv ex =
      Except.ok
        { name := name.toOpt
          _type := if req then GraphType.nonNull type_ else type_
          args := to_arguments args.items (relocatedExtra name source ex)
          resolver := storedResolver source resolver
          deprecation_reason := dr
          description := desc
          default_value := dv
          get_resolver := none } := by
  cases name <;> cases source <;>
    simp [Field.make, hc1, hc2, hc3, StrOrMounted.toOpt, relocatedExtra,
      storedResolver]

/-- Elimination form: what a successful `Field.__init__` call implies about
the stored record. -/
lemma Field.make_ok_elim {α β : Type} {type_ : GraphType} {args : ArgsParam}
    {resolver : Option (Resolver α β)} {source : StrOrMounted}
    {dr : Option String} {name : StrOrMounted} {desc : Option String}
    {req : Bool} {dv : PyDefault} {ex : List (String × ArgLike)} {f : Field α β}
    (h : Field.make type_ args resolver source dr name desc req dv ex = Except.ok f) :
    f = { name := name.toOpt
          _type := if req then GraphType.nonNull type_ else type_
          args := to_arguments args.items (relocatedExtra name source ex)
          resolver := storedResolver source resolver
          deprecation_reason := dr
          description := desc
          default_value := dv
          get_resolver := none } := by
  obtain ⟨h1, h2, h3⟩ := Field.make_ok_inv h
  rw [Field.make_ok_of_guards type_ args resolver source dr name desc req dv ex h1 h2 h3]
    at h
  exact (Except.ok.inj h).symm

/-- The record `FieldDecorator.__init__` stores when no assertion fires
(the decorator passes `source=None`, so the stored resolver is exactly
`fget`). -/
def decoratorRecord {α β : Type} (fget : Option (PyFunc α β))
    (fset : Option (α → β → α)) (fdel : Option (α → α)) (type_ : GraphType)
    (args : ArgsParam) (name : StrOrMounted) (desc : Option String)
    (req : Bool) (dv : PyDefault) (dr : Option String)
    (ex : List (String × ArgLike)) : FieldDecorator α β :=
  { toField :=
      { name := name.toOpt
        _type := if req then GraphType.nonNull type_ else type_
        args := to_arguments args.items (relocatedExtra name StrOrMounted.pynone ex)
        resolver := Option.map Resolver.user fget
        deprecation_reason := dr
        description := decoratorDescription fget desc
        default_value := dv
        get_resolver := none }
    fget := fget, fset := fset, fdel := fdel }

/-- The record a successful `FieldDecorator.__init__` call stores. -/
lemma decoratorMake_ok_of_guards {α β : Type} (fget : Option (PyFunc α β))
    (fset : Option (α → β → α)) (fdel : Option (α → α)) (type_ : GraphType)
    (args : ArgsParam) (name : StrOrMounted) (desc : Option String)
    (req : Bool) (dv : PyDefault) (dr : Option String)
    (ex : List (String × ArgLike))
    (hc1 : (args.truthy && !args.isMapping) = false)
    (hc3 : dv.isCallable = false) :
    FieldDecorator.make fget fset fdel type_ args name desc req dv dr ex =
      Except.ok (decoratorRecord fget fset fdel type_ args name desc req dv dr ex) := by
  unfold FieldDecorator.make
  rw [Field.make_ok_of_guards type_ args (Option.map Resolver.user fget)
    StrOrMounted.pynone dr name (decoratorDescription fget desc) req dv ex hc1
    (by simp [StrOrMounted.truthy]) hc3]
  rfl

/-- If `FieldDecorator.__init__` returns normally, the `args` and
`default_value` assertions did not fire. -/
lemma decoratorMake_ok_inv {α β : Type} {fget : Option (PyFunc α β)}
    {fset : Option (α → β → α)} {fdel : Option (α → α)} {type_ : GraphType}
    {args : ArgsParam} {name : StrOrMounted} {desc : Option String}
    {req : Bool} {dv : PyDefault} {dr : Option String}
    {ex : List (String × ArgLike)} {d : FieldDecorator α β}
    (h : FieldDecorator.make fget fset fdel type_ args name desc req dv dr ex =
      Except.ok d) :
    (args.truthy && !args.isMapping) = false ∧ dv.isCallable = false := by
  unfold FieldDecorator.make at h
  split at h
  · exact Except.noConfusion h
  · rename_i f heq
    obtain ⟨h1, _, h3⟩ := Field.make_ok_inv heq
    exact ⟨h1, h3⟩

/-- Elimination form: what a successful `FieldDecorator.__init__` call
implies about the stored record. -/
lemma decoratorMake_ok_elim {α β : Type} {fget : Option (PyFunc α β)}
    {fset : Option (α → β → α)} {fdel : Option (α → α)} {type_ : GraphType}
    {args : ArgsParam} {name : StrOrMounted} {desc : Option String}
    {req : Bool} {dv : PyDefault} {dr : Option String}
    {ex : List (String × ArgLike)} {d : FieldDecorator α β}
    (h : FieldDecorator.make fget fset fdel type_ args name desc req dv dr ex =
      Except.ok d) :
    d = decoratorRecord fget fset fdel type_ args name desc req dv dr ex := by
  obtain ⟨h1, h3⟩ := decoratorMake_ok_inv h
  rw [decoratorMake_ok_of_guards fget fset fdel type_ args name desc req dv dr ex
    h1 h3] at h
  exact (Except.ok.inj h).symm

/-! The claims. -/

/-- C1: Accessing a `FieldDecorator` through the class — `__get__` with
`obj = None` — returns the metadata object itself, unchanged. -/
theorem fieldDecorator_get_through_class_returns_self {α β : Type}
    (d : FieldDecorator α β) : d.get none = GetResult.descriptor d := rfl

/-- C2: When `fget` is present, reading a `FieldDecorator` through an
instance returns exactly `fget(obj)`, the live computed value. -/
theorem fieldDecorator_get_through_instance_applies_fget {α β : Type}
    (d : FieldDecorator α β) (f : PyFunc α β) (obj : α)
    (h : d.fget = some f) :
    d.get (some obj) = GetResult.value (f.fn obj) := by
  simp [FieldDecorator.get, h]

/-- Witness for C2 at a concrete decorator. -/
theorem fieldDecorator_get_through_instance_applies_fget_witness :
    dFull.get (some 41) = GetResult.value 42 :=
  fieldDecorator_get_through_instance_applies_fget dFull sampleGet 41 rfl

/-- C3 (code bug): with `fget = None`, `__get__` on an instance *returns*
the `AttributeError` as the attribute's value instead of raising it — the
source says `return AttributeError(…)` where the sibling `__set__` and
`__delete__` use `raise`. Evaluated here at a concrete failing input. -/
theorem fieldDecorator_get_missing_fget_returns_error_as_value :
    dEmpty.get (some 0) = GetResult.attrErrorValue "Can't get attribute!" := rfl

/-- C4: `__set__` calls `fset(obj, value)` when `fset` is present and
raises `AttributeError` when it is `None`; `__delete__` likewise with
`fdel`; in the `None` cases the result is the fixed error, no stored
callable being invoked. -/
theorem fieldDecorator_set_delete_delegate_or_raise {α β : Type}
    (d : FieldDecorator α β) (obj : α) (v : β) :
    (∀ f, d.fset = some f → d.set obj v = Except.ok (f obj v)) ∧
    (d.fset = none → d.set obj v = Except.error "Can't set attribute!") ∧
    (∀ g, d.fdel = some g → d.delete obj = Except.ok (g obj)) ∧
    (d.fdel = none → d.delete obj = Except.error "Can't delete attribute!") := by
  refine ⟨fun f hf => ?_, fun hf => ?_, fun g hg => ?_, fun hg => ?_⟩ <;>
    simp_all [FieldDecorator.set, FieldDecorator.delete]

/-- Witness for C4 at concrete decorators, both with and without the
callables. -/
theorem fieldDecorator_set_delete_delegate_or_raise_witness :
    dFull.set 1 10 = Except.ok 10 ∧
    dEmpty.set 1 10 = Except.error "Can't set attribute!" ∧
    dFull.delete 5 = Except.ok 0 ∧
    dEmpty.delete 5 = Except.error "Can't delete attribute!" :=
  ⟨(fieldDecorator_set_delete_delegate_or_raise dFull 1 10).1 _ rfl,
   (fieldDecorator_set_delete_delegate_or_raise dEmpty 1 10).2.1 rfl,
   (fieldDecorator_set_delete_delegate_or_raise dFull 5 10).2.2.1 _ rfl,
   (fieldDecorator_set_delete_delegate_or_raise dEmpty 5 10).2.2.2 rfl⟩

/-- C5: The getter drives field resolution: every `FieldDecorator` stores
its `fget` as the resolver, and `field_property` (both the direct and the
keyword-argument wrapper form) yields a decorator whose `fget` and
resolver are the decorated function and whose `fset` and `fdel` are
`None`. -/
theorem fieldDecorator_resolver_is_fget {α β : Type} (type_ : GraphType)
    (args : ArgsParam) (name : StrOrMounted) (desc : Option String)
    (req : Bool) (dv : PyDefault) (dr : Option String)
    (ex : List (String × ArgLike)) :
    (∀ (fget : Option (PyFunc α β)) fset fdel d,
      FieldDecorator.make fget fset fdel type_ args name desc req dv dr ex =
        Except.ok d →
      d.fget = fget ∧ d.toField.resolver = Option.map Resolver.user fget) ∧
    (∀ (f : PyFunc α β) d,
      field_property f type_ name desc req args dv dr ex = Except.ok d →
      d.fget = some f ∧ d.toField.resolver = some (Resolver.user f) ∧
      d.fset = none ∧ d.fdel = none) ∧
    (∀ (f : PyFunc α β) d,
      field_property_wrapper type_ name desc req args dv dr ex f = Except.ok d →
      d.fget = some f ∧ d.toField.resolver = some (Resolver.user f) ∧
      d.fset = none ∧ d.fdel = none) := by
  refine ⟨fun fget fset fdel d h => ?_, fun f d h => ?_, fun f d h => ?_⟩
  · rw [decoratorMake_ok_elim h]
    exact ⟨rfl, rfl⟩
  · unfold field_property at h
    rw [decoratorMake_ok_elim h]
    exact ⟨rfl, rfl, rfl, rfl⟩
  · unfold field_property_wrapper at h
    rw [decoratorMake_ok_elim h]
    exact ⟨rfl, rfl, rfl, rfl⟩

/-- Witness for C5 at a concrete `field_property` application. -/
theorem fieldDecorator_resolver_is_fget_witness :
    dProp.fget = some sampleGet ∧
    dProp.toField.resolver = some (Resolver.user sampleGet) ∧
    dProp.fset = none ∧ dProp.fdel = none :=
  (fieldDecorator_resolver_is_fget (GraphType.base 2) ArgsParam.pynone
    StrOrMounted.pynone none false PyDefault.pynone none []).2.1 sampleGet dProp rfl

/-- C6: `wrap_resolve` returns the field's own resolver when it has one
(and `get_resolver` is `None`), else the parent resolver; `wrap_subscribe`
returns the parent subscribe unchanged. -/
theorem field_wrap_resolve_and_wrap_subscribe {α β : Type} (f : Field α β)
    (parent_resolver parent_subscribe : Option (Resolver α β)) :
    (∀ r, f.get_resolver = none → f.resolver = some r →
      f.wrap_resolve parent_resolver = some r) ∧
    (f.get_resolver = none → f.resolver = none →
      f.wrap_resolve parent_resolver = parent_resolver) ∧
    f.wrap_subscribe parent_subscribe = parent_subscribe := by
  refine ⟨fun r hg hr => ?_, fun hg hr => ?_, rfl⟩ <;>
    simp [Field.wrap_resolve, hg, hr]

/-- Witness for C6 at concrete fields with and without a resolver. -/
theorem field_wrap_resolve_and_wrap_subscribe_witness :
    dProp.toField.wrap_resolve none = some (Resolver.user sampleGet) ∧
    dEmpty.toField.wrap_resolve (some (Resolver.sourcePartial "x")) =
      some (Resolver.sourcePartial "x") ∧
    dProp.toField.wrap_subscribe (some (Resolver.sourcePartial "y")) =
      some (Resolver.sourcePartial "y") :=
  ⟨(field_wrap_resolve_and_wrap_subscribe dProp.toField none none).1 _ rfl rfl,
   (field_wrap_resolve_and_wrap_subscribe dEmpty.toField
      (some (Resolver.sourcePartial "x")) none).2.1 rfl rfl,
   (field_wrap_resolve_and_wrap_subscribe dProp.toField none
      (some (Resolver.sourcePartial "y"))).2.2⟩

/-- C7: A `Field` constructed with non-mounted `name` and `source` stores
exactly the metadata it was given: name, resolver (or the source-derived
one), description, deprecation reason and default value equal the
constructor arguments, and the stored type is `NonNull(type_)` when
`required` is truthy, else `type_` itself. -/
theorem field_init_stores_metadata {α β : Type} (type_ : GraphType)
    (args : ArgsParam) (resolver : Option (Resolver α β)) (source : StrOrMounted)
    (dr : Option String) (name : StrOrMounted) (desc : Option String)
    (req : Bool) (dv : PyDefault) (ex : List (String × ArgLike)) (f : Field α β)
    (_hname : name.isMounted = false) (_hsource : source.isMounted = false)
    (h : Field.make type_ args resolver source dr name desc req dv ex =
      Except.ok f) :
    f.name = name.toOpt ∧
    (source.truthy = false → f.resolver = resolver) ∧
    (∀ s, source = StrOrMounted.str s → source.truthy = true →
      f.resolver = some (Resolver.sourcePartial s)) ∧
    f.description = desc ∧
    f.deprecation_reason = dr ∧
    f.default_value = dv ∧
    f._type = (if req then GraphType.nonNull type_ else type_) := by
  rw [Field.make_ok_elim h]
  refine ⟨rfl, ?_, ?_, rfl, rfl, rfl, rfl⟩
  · intro ht
    cases source <;> simp_all [storedResolver, StrOrMounted.truthy]
  · rintro s rfl ht
    simp_all [storedResolver, StrOrMounted.truthy]

/-- Witness for C7 at a concrete required, source-driven field. -/
theorem field_init_stores_metadata_witness :
    sampleSourceField._type = GraphType.nonNull (GraphType.base 0) ∧
    sampleSourceField.resolver = some (Resolver.sourcePartial "src") ∧
    sampleSourceField.default_value = PyDefault.value 7 :=
  ⟨(field_init_stores_metadata (GraphType.base 0) ArgsParam.pynone none
      (StrOrMounted.str "src") (some "old") (StrOrMounted.str "n") (some "d")
      true (PyDefault.value 7) [] sampleSourceField rfl rfl rfl).2.2.2.2.2.2,
   (field_init_stores_metadata (GraphType.base 0) ArgsParam.pynone none
      (StrOrMounted.str "src") (some "old") (StrOrMounted.str "n") (some "d")
      true (PyDefault.value 7) [] sampleSourceField rfl rfl rfl).2.2.1 "src" rfl
      rfl,
   (field_init_stores_metadata (GraphType.base 0) ArgsParam.pynone none
      (StrOrMounted.str "src") (some "old") (StrOrMounted.str "n") (some "d")
      true (PyDefault.value 7) [] sampleSourceField rfl rfl rfl).2.2.2.2.2.1⟩

/-- C8: `Field.__init__` fails with an assertion error exactly when `args`
is truthy but not a mapping, or `source` and `resolver` are both truthy,
or `default_value` is callable; otherwise construction succeeds. -/
theorem field_init_assertion_characterization {α β : Type} (type_ : GraphType)
    (args : ArgsParam) (resolver : Option (Resolver α β)) (source : StrOrMounted)
    (dr : Option String) (name : StrOrMounted) (desc : Option String)
    (req : Bool) (dv : PyDefault) (ex : List (String × ArgLike)) :
    isOk (Field.make type_ args resolver source dr name desc req dv ex) =
      !((args.truthy && !args.isMapping) || (source.truthy && resolver.isSome) ||
        dv.isCallable) := by
  by_cases h1 : (args.truthy && !args.isMapping) = true
  · unfold Field.make
    simp [isOk, h1]
  · have hc1 : (args.truthy && !args.isMapping) = false := by simpa using h1
    by_cases h2 : (source.truthy && resolver.isSome) = true
    · unfold Field.make
      simp [isOk, hc1, h2]
    · have hc2 : (source.truthy && resolver.isSome) = false := by simpa using h2
      by_cases h3 : dv.isCallable = true
      · unfold Field.make
        simp [isOk, hc1, hc2, h3]
      · have hc3 : dv.isCallable = false := by simpa using h3
        rw [Field.make_ok_of_guards type_ args resolver source dr name desc req
          dv ex hc1 hc2 hc3]
        simp [isOk, hc1, hc2, hc3]

/-! Further helper lemmas, for the accessor (`getter`/`setter`/`deleter`)
re-construction calls. -/

/-- Reinjecting a stored name and projecting it back is the identity. -/
lemma strOrMountedOfOpt_toOpt (o : Option String) :
    (strOrMountedOfOpt o).toOpt = o := by
  cases o <;> rfl

/-- A reinjected stored name is never a mounted instance, so no relocation
happens in a re-construction call. -/
lemma relocatedExtra_ofOpt (o : Option String) :
    relocatedExtra (strOrMountedOfOpt o) StrOrMounted.pynone [] = [] := by
  cases o <;> rfl

/-- The description-defaulting step is idempotent for a fixed getter. -/
lemma decoratorDescription_idem {α β : Type} (fg : Option (PyFunc α β))
    (desc : Option String) :
    decoratorDescription fg (decoratorDescription fg desc) =
      decoratorDescription fg desc := by
  rcases fg with _ | f
  · simp [decoratorDescription]
  · rcases desc with _ | s
    · rcases hd : f.doc with _ | s2 <;> simp [decoratorDescription, hd]
    · simp [decoratorDescription]

/-- `getter` always succeeds (given a non-callable stored default) and
stores the re-constructed record. -/
lemma FieldDecorator.getter_ok {α β : Type} (d : FieldDecorator α β)
    (g : PyFunc α β) (hdv : d.toField.default_value.isCallable = false) :
    d.getter g = Except.ok (decoratorRecord (some g) d.fset d.fdel
      d.toField._type (ArgsParam.mapping d.toField.args)
      (strOrMountedOfOpt d.toField.name) d.toField.description
      (get_type d.toField._type).isNonNull d.toField.default_value
      d.toField.deprecation_reason []) := by
  unfold FieldDecorator.getter
  exact decoratorMake_ok_of_guards _ _ _ _ _ _ _ _ _ _ _
    (by simp [ArgsParam.truthy, ArgsParam.isMapping]) hdv

/-- `setter` always succeeds (given a non-callable stored default) and
stores the re-constructed record. -/
lemma FieldDecorator.setter_ok {α β : Type} (d : FieldDecorator α β)
    (s : α → β → α) (hdv : d.toField.default_value.isCallable = false) :
    d.setter s = Except.ok (decoratorRecord d.fget (some s) d.fdel
      d.toField._type (ArgsParam.mapping d.toField.args)
      (strOrMountedOfOpt d.toField.name) d.toField.description
      (get_type d.toField._type).isNonNull d.toField.default_value
      d.toField.deprecation_reason []) := by
  unfold FieldDecorator.setter
  exact decoratorMake_ok_of_guards _ _ _ _ _ _ _ _ _ _ _
    (by simp [ArgsParam.truthy, ArgsParam.isMapping]) hdv

/-- `deleter` always succeeds (given a non-callable stored default) and
stores the re-constructed record. -/
lemma FieldDecorator.deleter_ok {α β : Type} (d : FieldDecorator α β)
    (r : α → α) (hdv : d.toField.default_value.isCallable = false) :
    d.deleter r = Except.ok (decoratorRecord d.fget d.fset (some r)
      d.toField._type (ArgsParam.mapping d.toField.args)
      (strOrMountedOfOpt d.toField.name) d.toField.description
      (get_type d.toField._type).isNonNull d.toField.default_value
      d.toField.deprecation_reason []) := by
  unfold FieldDecorator.deleter
  exact decoratorMake_ok_of_guards _ _ _ _ _ _ _ _ _ _ _
    (by simp [ArgsParam.truthy, ArgsParam.isMapping]) hdv

/-- C9 counterexample: the claim fails on the code at concrete inputs.
On `dReq` (constructed with `required=True`) `setter` does not preserve the
field's type: `required` is recomputed as `isinstance(self.type, NonNull)`
and the already-wrapped `self._type` is wrapped again, yielding
`NonNull(NonNull(…))`. And on `dNoDoc` (no description, getter without
docstring), `getter` does not preserve the description: it is re-derived
from the new getter's docstring. -/
theorem fieldDecorator_accessors_frame_counterexample :
    Except.map (fun d => d.toField._type) (dReq.setter fun o _ => o) ≠
      Except.ok dReq.toField._type ∧
    Except.map (fun d => d.toField._type) (dReq.setter fun o _ => o) =
      Except.ok (GraphType.nonNull (GraphType.nonNull (GraphType.base 0))) ∧
    Except.map (fun d => d.toField.description) (dNoDoc.getter sampleGet) ≠
      Except.ok dNoDoc.toField.description ∧
    Except.map (fun d => d.toField.description) (dNoDoc.getter sampleGet) =
      Except.ok (some "The docstring.") := by
  refine ⟨?_, rfl, ?_, rfl⟩
  · intro h
    rw [show Except.map (fun d => d.toField._type) (dReq.setter fun o _ => o) =
        Except.ok (GraphType.nonNull (GraphType.nonNull (GraphType.base 0)))
        from rfl] at h
    exact absurd (Except.ok.inj h) (by decide)
  · intro h
    rw [show Except.map (fun d => d.toField.description) (dNoDoc.getter sampleGet) =
        Except.ok (some "The docstring.") from rfl] at h
    exact absurd (Except.ok.inj h) (by decide)

/-- C9 (amended): for a `FieldDecorator` produced by its constructor,
`getter`/`setter`/`deleter` replace only the corresponding callable and
preserve the other two callables, name, args, default value and
deprecation reason. The description is preserved by `setter` and `deleter`,
while `getter` re-derives it from the new getter's docstring when the
stored description is `None`. The field's type is preserved when the
decorator was not required; when its stored type is already `NonNull`, the
rebuilt field's type is `NonNull` of it (wrapped a second time). -/
theorem fieldDecorator_accessors_preserve_fields {α β : Type}
    {fg : Option (PyFunc α β)} {fs : Option (α → β → α)} {fd : Option (α → α)}
    {t : GraphType} {a : ArgsParam} {n : StrOrMounted} {desc : Option String}
    {req : Bool} {dv : PyDefault} {dr : Option String}
    {ex : List (String × ArgLike)} {d : FieldDecorator α β}
    (hmk : FieldDecorator.make fg fs fd t a n desc req dv dr ex = Except.ok d) :
    (∀ g : PyFunc α β, ∃ d', d.getter g = Except.ok d' ∧
      d'.fget = some g ∧ d'.fset = d.fset ∧ d'.fdel = d.fdel ∧
      d'.toField.name = d.toField.name ∧
      d'.toField.args = d.toField.args ∧
      d'.toField.description =
        (if d.toField.description = none then g.doc else d.toField.description) ∧
      d'.toField.default_value = d.toField.default_value ∧
      d'.toField.deprecation_reason = d.toField.deprecation_reason ∧
      d'.toField._type = (if d.toField._type.isNonNull then
        GraphType.nonNull d.toField._type else d.toField._type)) ∧
    (∀ s : α → β → α, ∃ d', d.setter s = Except.ok d' ∧
      d'.fget = d.fget ∧ d'.fset = some s ∧ d'.fdel = d.fdel ∧
      d'.toField.name = d.toField.name ∧
      d'.toField.args = d.toField.args ∧
      d'.toField.description = d.toField.description ∧
      d'.toField.default_value = d.toField.default_value ∧
      d'.toField.deprecation_reason = d.toField.deprecation_reason ∧
      d'.toField._type = (if d.toField._type.isNonNull then
        GraphType.nonNull d.toField._type else d.toField._type)) ∧
    (∀ r : α → α, ∃ d', d.deleter r = Except.ok d' ∧
      d'.fget = d.fget ∧ d'.fset = d.fset ∧ d'.fdel = some r ∧
      d'.toField.name = d.toField.name ∧
      d'.toField.args = d.toField.args ∧
      d'.toField.description = d.toField.description ∧
      d'.toField.default_value = d.toField.default_value ∧
      d'.toField.deprecation_reason = d.toField.deprecation_reason ∧
      d'.toField._type = (if d.toField._type.isNonNull then
        GraphType.nonNull d.toField._type else d.toField._type)) := by
  obtain ⟨hc1, hc3⟩ := decoratorMake_ok_inv hmk
  have hd := decoratorMake_ok_elim hmk
  subst hd
  refine ⟨fun g => ⟨_, FieldDecorator.getter_ok _ g hc3, rfl, rfl, rfl, ?_, ?_,
      ?_, rfl, rfl, ?_⟩,
    fun s => ⟨_, FieldDecorator.setter_ok _ s hc3, rfl, rfl, rfl, ?_, ?_, ?_,
      rfl, rfl, ?_⟩,
    fun r => ⟨_, FieldDecorator.deleter_ok _ r hc3, rfl, rfl, rfl, ?_, ?_, ?_,
      rfl, rfl, ?_⟩⟩ <;>
  simp only [decoratorRecord, decoratorDescription_idem, strOrMountedOfOpt_toOpt,
    relocatedExtra_ofOpt, to_arguments, ArgsParam.items, List.append_nil,
    get_type]
  · cases hD : decoratorDescription fg desc <;>
      simp [decoratorRecord, decoratorDescription, hD]

/-- Witness for C9 (amended) at the concrete required decorator. -/
theorem fieldDecorator_accessors_preserve_fields_witness :
    ∃ d', dReq.setter (fun o _ => o) = Except.ok d' ∧
      d'.fget = dReq.fget ∧ d'.fset = some (fun o _ => o) ∧ d'.fdel = dReq.fdel ∧
      d'.toField.name = dReq.toField.name ∧
      d'.toField.args = dReq.toField.args ∧
      d'.toField.description = dReq.toField.description ∧
      d'.toField.default_value = dReq.toField.default_value ∧
      d'.toField.deprecation_reason = dReq.toField.deprecation_reason ∧
      d'.toField._type = (if dReq.toField._type.isNonNull then
        GraphType.nonNull dReq.toField._type else dReq.toField._type) :=
  (fieldDecorator_accessors_preserve_fields
    (show FieldDecorator.make (some sampleGet) none none (GraphType.base 0)
        ArgsParam.pynone (StrOrMounted.str "p") none true PyDefault.pynone
        none [] = Except.ok dReq from rfl)).2.1 (fun o _ => o)

/-- C10: A `FieldDecorator` constructed with no description and a getter
stores `getdoc(fget)` as its description; an explicit description is
stored unchanged regardless of the getter's docstring. -/
theorem fieldDecorator_description_defaults_to_getdoc {α β : Type}
    (fs : Option (α → β → α)) (fd : Option (α → α)) (t : GraphType)
    (a : ArgsParam) (n : StrOrMounted) (req : Bool) (dv : PyDefault)
    (dr : Option String) (ex : List (String × ArgLike)) :
    (∀ (f : PyFunc α β) d,
      FieldDecorator.make (some f) fs fd t a n none req dv dr ex =
        Except.ok d →
      d.toField.description = f.doc) ∧
    (∀ (fo : Option (PyFunc α β)) (s : String) d,
      FieldDecorator.make fo fs fd t a n (some s) req dv dr ex =
        Except.ok d →
      d.toField.description = some s) := by
  refine ⟨fun f d h => ?_, fun fo s d h => ?_⟩
  · rw [decoratorMake_ok_elim h]
    simp [decoratorRecord, decoratorDescription]
  · rw [decoratorMake_ok_elim h]
    simp [decoratorRecord, decoratorDescription]

/-- Witness for C10 at concrete decorators: docstring-derived and explicit
descriptions. -/
theorem fieldDecorator_description_defaults_to_getdoc_witness :
    dProp.toField.description = sampleGet.doc ∧
    dExplicitDesc.toField.description = some "explicit" :=
  ⟨(fieldDecorator_description_defaults_to_getdoc none none (GraphType.base 2)
      ArgsParam.pynone StrOrMounted.pynone false PyDefault.pynone none []).1
      sampleGet dProp rfl,
   (fieldDecorator_description_defaults_to_getdoc none none (GraphType.base 3)
      ArgsParam.pynone StrOrMounted.pynone false PyDefault.pynone none []).2
      (some sampleGet) "explicit" dExplicitDesc rfl⟩

end Graphene
